import Mathlib

/-!
Verification of the telehealth article analysis scripts.

The Python sources are embedded shallowly over lists of characters
(ASCII model): pure text-processing functions become Lean functions,
the regular-expression searches become either a small backtracking
matcher over a regex AST (mirroring the pattern strings of the source)
or, for the two publication-year patterns, direct deterministic
scanners, and the one reachable exception (ValueError from int()) is
modelled with Except.
-/

/-- Coerce a string literal to the character-list representation used
throughout this development. -/
def sl (s : String) : List Char := s.data

/-- ASCII decimal digit test, model of the regex class for digits. -/
def isDigitC (c : Char) : Bool := decide (48 ≤ c.toNat ∧ c.toNat ≤ 57)

/-- ASCII whitespace test, model of Python whitespace (the regex class
for spaces and the default str.strip characters). -/
def isPySpace (c : Char) : Bool :=
  decide (c.toNat = 32 ∨ c.toNat = 9 ∨ c.toNat = 10 ∨ c.toNat = 13 ∨
    c.toNat = 11 ∨ c.toNat = 12)

/-- ASCII word-character test, model of the regex word class
(letters, digits, underscore). -/
def isWordC (c : Char) : Bool := c.isAlpha || isDigitC c || c == '_'

/-- Model of Python str.lower (ASCII). -/
def pyLower (l : List Char) : List Char := l.map Char.toLower

/-- Model of Python str.strip with no arguments. -/
def pyStrip (l : List Char) : List Char :=
  ((l.dropWhile isPySpace).reverse.dropWhile isPySpace).reverse

/-- Model of Python str.split on a single separator character;
splitting the empty string yields one empty field. -/
def splitOnChar (sep : Char) : List Char → List (List Char)
  | [] => [[]]
  | c :: cs =>
    if c = sep then [] :: splitOnChar sep cs
    else
      match splitOnChar sep cs with
      | [] => [[c]]
      | l :: ls => (c :: l) :: ls

/-- Does the needle match at the very start of the haystack? -/
def isSubAt : List Char → List Char → Bool
  | [], _ => true
  | _ :: _, [] => false
  | c :: ns, h :: hs => c == h && isSubAt ns hs

/-- Model of the Python substring test (needle in haystack). -/
def strIn (needle : List Char) : List Char → Bool
  | [] => needle.isEmpty
  | h :: hs => isSubAt needle (h :: hs) || strIn needle hs

/-- Does any keyword of the list occur as a substring of the text? -/
def kwAnyMatch (kws : List (List Char)) (t : List Char) : Bool :=
  kws.any (fun k => strIn k t)

/-- Numeric value of a list of decimal digits. -/
def digitsVal (l : List Char) : Nat :=
  l.foldl (fun n c => 10 * n + (c.toNat - 48)) 0

/-- Decimal rendering of a natural number, model of Python str(). -/
def natToStr (n : Nat) : List Char := (Nat.repr n).data

/-- Model of Python int() on a string: strips whitespace, accepts an
optional sign followed by at least one digit, otherwise raises
(returns none). -/
def pyInt (s : List Char) : Option Int :=
  match pyStrip s with
  | [] => none
  | '-' :: ds =>
    if ds ≠ [] ∧ ds.all isDigitC then some (-(digitsVal ds : Int)) else none
  | '+' :: ds =>
    if ds ≠ [] ∧ ds.all isDigitC then some (digitsVal ds : Int) else none
  | ds =>
    if ds.all isDigitC then some (digitsVal ds : Int) else none

/-- Model of Python max() over a list of naturals (callers guarantee
the list is non-empty). -/
def pyMax (l : List Nat) : Nat := l.foldl Nat.max 0

/-- Model of Python str.endswith for a single character. -/
def endsWith (c : Char) (l : List Char) : Bool :=
  match l.getLast? with
  | some d => d == c
  | none => false

/-- Join a list of strings with a separator, model of Python
sep.join(parts). -/
def joinSep (sep : List Char) : List (List Char) → List Char
  | [] => []
  | [x] => x
  | x :: xs => x ++ sep ++ joinSep sep xs

/-!
A small backtracking regular-expression matcher.  The AST mirrors the
constructs used by the pattern strings in the source: character
classes, concatenation, prioritised alternation, greedy star and
option, and numbered capture groups.  Matching is continuation-passing
with a fuel argument; fuel bounds only the nesting depth (AST size
plus star iterations), so any fuel of at least text length plus
pattern size is enough.
-/

/-- Regular-expression AST. -/
inductive RE where
  | eps : RE
  | pred : (Char → Bool) → RE
  | cat : RE → RE → RE
  | alt : RE → RE → RE
  | star : RE → RE
  | opt : RE → RE
  | group : Nat → RE → RE

/-- Captured groups: group number paired with captured characters,
most recent first. -/
abbrev Caps := List (Nat × List Char)

/-- Backtracking matcher in continuation-passing style.  Alternation
tries the left branch first and greedy star prefers to consume, which
is the backtracking priority of the Python re module. -/
def reM (fuel : Nat) (r : RE) (cs : List Char) (g : Caps)
    (k : List Char → Caps → Option α) : Option α :=
  match fuel with
  | 0 => none
  | fuel + 1 =>
    match r with
    | .eps => k cs g
    | .pred p =>
      match cs with
      | [] => none
      | c :: cs2 => if p c then k cs2 g else none
    | .cat a b => reM fuel a cs g (fun cs2 g2 => reM fuel b cs2 g2 k)
    | .alt a b =>
      match reM fuel a cs g k with
      | some res => some res
      | none => reM fuel b cs g k
    | .star a =>
      match reM fuel a cs g (fun cs2 g2 =>
          if cs2.length < cs.length then reM fuel (.star a) cs2 g2 k
          else none) with
      | some res => some res
      | none => k cs g
    | .opt a =>
      match reM fuel a cs g k with
      | some res => some res
      | none => k cs g
    | .group n a =>
      reM fuel a cs g (fun cs2 g2 =>
        k cs2 ((n, cs.take (cs.length - cs2.length)) :: g2))

/-- Model of re.search: try a match at each position from the left,
returning the captures of the first position that matches. -/
def reSearch (fuel : Nat) (r : RE) : List Char → Option Caps
  | [] => reM fuel r [] [] (fun _ g => some g)
  | c :: cs =>
    match reM fuel r (c :: cs) [] (fun _ g => some g) with
    | some g => some g
    | none => reSearch fuel r cs

/-- Model of match.group(n): the most recent capture of group n
(empty when the group did not participate). -/
def capGet (g : Caps) (n : Nat) : List Char :=
  match g with
  | [] => []
  | (m, s) :: rest => if m = n then s else capGet rest n

/-- Fuel that is always sufficient for the patterns of this
development. -/
def fuelFor (text : List Char) : Nat := text.length + 400

/-- Single literal character. -/
def chr (c : Char) : RE := .pred (fun x => x == c)

/-- Case-insensitive literal character, model of one pattern character
under the re.IGNORECASE inline flag. -/
def chrCI (c : Char) : RE := .pred (fun x => x.toLower == c.toLower)

/-- Literal string. -/
def relit (s : List Char) : RE :=
  s.foldr (fun c r => RE.cat (chr c) r) RE.eps

/-- Case-insensitive literal string. -/
def relitCI (s : List Char) : RE :=
  s.foldr (fun c r => RE.cat (chrCI c) r) RE.eps

/-- Prioritised alternation of a list of alternatives, left first. -/
def alts : List RE → RE
  | [] => .pred (fun _ => false)
  | [r] => r
  | r :: rs => .alt r (alts rs)

/-- Concatenation of a list of regexes. -/
def cats : List RE → RE
  | [] => .eps
  | [r] => r
  | r :: rs => .cat r (cats rs)

/-- One or more repetitions. -/
def rePlus (r : RE) : RE := .cat r (.star r)

/-- The whitespace class, one or more. -/
def ws1 : RE := rePlus (.pred isPySpace)

/-- The whitespace class, zero or more. -/
def ws0 : RE := .star (.pred isPySpace)

/-- One or more digits. -/
def digitsPlus : RE := rePlus (.pred isDigitC)

/-- One or more word characters. -/
def wordPlus : RE := rePlus (.pred isWordC)

/-- Capture group 1 holding a digit run with optional thousands
separators, the number capture shared by all sample-size patterns. -/
def numGroup : RE :=
  .group 1 (.cat digitsPlus (.star (.cat (chr ',') digitsPlus)))

/-!
Sample-size patterns, one per regex literal in extract_sample_size of
analyze_articles.py, in source order.
-/

/-- Pattern 1 of extract_sample_size: an n followed by an equals sign
and a number. -/
def sampleP1 : RE :=
  cats [.pred (fun c => c == 'n' || c == 'N'), ws0, chr '=', ws0, numGroup]

/-- Pattern 2 of extract_sample_size: a cohort noun, size or of, two
optional filler words, then a number. -/
def sampleP2 : RE :=
  cats [alts [relit (sl "sample"), relit (sl "cohort"),
        relit (sl "population"), relit (sl "participants"),
        relit (sl "subjects"), relit (sl "patients")],
    ws1,
    alts [relit (sl "size"), relit (sl "of")],
    ws1,
    .opt (alts [relit (sl "was"), relit (sl "were"), relit (sl "of")]),
    ws0,
    .opt (alts [relit (sl ":"), relit (sl "was"), relit (sl "were")]),
    ws0,
    numGroup]

/-- Pattern 3 of extract_sample_size: an enrolment verb, a number,
then a participant noun. -/
def sampleP3 : RE :=
  cats [alts [relit (sl "included"), relit (sl "enrolled"),
        relit (sl "recruited"), relit (sl "analyzed")],
    ws1, numGroup, ws1,
    alts [relit (sl "patients"), relit (sl "participants"),
        relit (sl "subjects"), relit (sl "individuals")]]

/-- Pattern 4 of extract_sample_size: a number, a participant noun,
were or was, then an enrolment verb. -/
def sampleP4 : RE :=
  cats [numGroup, ws1,
    alts [relit (sl "patients"), relit (sl "participants"),
        relit (sl "subjects"), relit (sl "individuals")],
    ws1,
    alts [relit (sl "were"), relit (sl "was")],
    ws1,
    alts [relit (sl "included"), relit (sl "enrolled"),
        relit (sl "recruited"), relit (sl "analyzed")]]

/-- Pattern 5 of extract_sample_size: data was or were collected from
a number of participants. -/
def sampleP5 : RE :=
  cats [relit (sl "data"), ws1,
    alts [relit (sl "was"), relit (sl "were")],
    ws1, relit (sl "collected"), ws1, relit (sl "from"), ws1,
    numGroup, ws1,
    alts [relit (sl "patients"), relit (sl "participants"),
        relit (sl "subjects"), relit (sl "individuals")]]

/-!
Duration patterns, one per regex literal in extract_study_duration of
analyze_articles.py, in source order.  A unit is captured in group 2
(group 3 for the range pattern) and an optional trailing s follows the
unit group, exactly as in the pattern strings.
-/

/-- Alternation over the four duration unit words. -/
def unitAlt : RE :=
  alts [relit (sl "day"), relit (sl "week"),
    relit (sl "month"), relit (sl "year")]

/-- Pattern 1 of extract_study_duration: study period or duration was
or of N units. -/
def durP1 : RE :=
  cats [alts [relit (sl "study"), relit (sl "trial"), relit (sl "analysis")],
    ws1,
    alts [relit (sl "period"), relit (sl "duration")],
    ws1,
    alts [relit (sl "was"), relit (sl "of")],
    ws1, .group 1 digitsPlus, ws1, .group 2 unitAlt, .opt (chr 's')]

/-- Pattern 2 of extract_study_duration: followed, monitored or
tracked for or over an optional period of N units. -/
def durP2 : RE :=
  cats [alts [relit (sl "followed"), relit (sl "monitored"),
        relit (sl "tracked")],
    ws1,
    alts [relit (sl "for"), relit (sl "over")],
    ws1,
    .opt (cats [relit (sl "a"), ws1, relit (sl "period"), ws1,
        relit (sl "of"), ws1]),
    .group 1 digitsPlus, ws1, .group 2 unitAlt, .opt (chr 's')]

/-- Pattern 3 of extract_study_duration: data were or was collected,
or study was conducted, over, during or for an optional period of N
units. -/
def durP3 : RE :=
  cats [alts [cats [relit (sl "data"), ws1,
          alts [relit (sl "were"), relit (sl "was")],
          ws1, relit (sl "collected")],
        cats [relit (sl "study"), ws1, relit (sl "was"), ws1,
          relit (sl "conducted")]],
    ws1,
    alts [relit (sl "over"), relit (sl "during"), relit (sl "for")],
    ws1,
    .opt (cats [relit (sl "a"), ws1, relit (sl "period"), ws1,
        relit (sl "of"), ws1]),
    .group 1 digitsPlus, ws1, .group 2 unitAlt, .opt (chr 's')]

/-- Pattern 4 of extract_study_duration: a numeric range N-M or N to M
units followed by study, period or duration. -/
def durP4 : RE :=
  cats [.group 1 digitsPlus,
    alts [relit (sl "-"), cats [ws1, relit (sl "to"), ws1]],
    .group 2 digitsPlus, ws1, .group 3 unitAlt, .opt (chr 's'), ws1,
    alts [relit (sl "study"), relit (sl "period"), relit (sl "duration")]]

/-- A word run, spaces, then four digits: the date shape of the
date-range duration pattern. -/
def dateWord : RE :=
  cats [wordPlus, ws1, .pred isDigitC, .pred isDigitC, .pred isDigitC,
    .pred isDigitC]

/-- Pattern 5 of extract_study_duration: between DATE and DATE. -/
def durP5 : RE :=
  cats [relit (sl "between"), ws1, .group 1 dateWord, ws1,
    relit (sl "and"), ws1, .group 2 dateWord]

/-!
Author patterns of extract_authors_from_pdf, case-insensitive, in
source order.
-/

/-- The bracketed class of word characters, whitespace, comma and
period used by the author patterns. -/
def authClass : RE := .pred (fun c => isWordC c || isPySpace c || c == ',' || c == '.')

/-- Author pattern 1: by followed by a name run. -/
def authP1 : RE := cats [relitCI (sl "by"), ws1, .group 1 (rePlus authClass)]

/-- Author pattern 2: author or authors, separators, then a name run. -/
def authP2 : RE :=
  cats [relitCI (sl "author"), .opt (chrCI 's'),
    rePlus (.pred (fun c => c == ':' || isPySpace c)),
    .group 1 (rePlus authClass)]

/-- Author pattern 3: a name run followed by Department of. -/
def authP3 : RE :=
  cats [.group 1 (rePlus authClass), ws1, relitCI (sl "Department of")]

/-- Author pattern 4: a name run followed by University. -/
def authP4 : RE :=
  cats [.group 1 (rePlus authClass), ws1, relitCI (sl "University")]

/-!
Field extractors of analyze_articles.py.
-/

/-- The newline character. -/
def nlChar : Char := Char.ofNat 10

/-- Model of os.path.basename: the part after the last slash
(splitOnChar never returns an empty list, so the default is unused). -/
def pyBasename (p : List Char) : List Char :=
  (splitOnChar '/' p).getLastD []

/-- Model of the root part of os.path.splitext: drop the suffix from
the last dot, unless every character before that dot is itself a dot. -/
def pySplitextRoot (b : List Char) : List Char :=
  let r := b.reverse
  let ext := r.takeWhile (fun c => !(c == '.'))
  if ext.length = r.length then b
  else
    let stem := r.drop (ext.length + 1)
    if stem.all (fun c => c == '.') then b else stem.reverse

/-- The fallback title of extract_title_from_pdf: the filename without
directory and extension, underscores replaced by spaces. -/
def fallback_title (filename : List Char) : List Char :=
  (pySplitextRoot (pyBasename filename)).map
    (fun c => if c = '_' then ' ' else c)

/-- extract_title_from_pdf: the first of the first ten lines whose
stripped form is non-empty, longer than 15 characters and does not
start with http; otherwise the filename-derived fallback. -/
def extract_title_from_pdf (text filename : List Char) : List Char :=
  match ((splitOnChar nlChar text).take 10 |>.map pyStrip).find?
      (fun s => !s.isEmpty && decide (15 < s.length) &&
        !(isSubAt (sl "http") s)) with
  | some line => line
  | none => fallback_title filename

/-- extract_authors_from_pdf: the four author patterns tried in order
against the first 1000 characters; the first captured group stripped,
else the sentinel. -/
def extract_authors_from_pdf (text : List Char) : List Char :=
  let head := text.take 1000
  match reSearch (fuelFor head) authP1 head with
  | some g => pyStrip (capGet g 1)
  | none =>
    match reSearch (fuelFor head) authP2 head with
    | some g => pyStrip (capGet g 1)
    | none =>
      match reSearch (fuelFor head) authP3 head with
      | some g => pyStrip (capGet g 1)
      | none =>
        match reSearch (fuelFor head) authP4 head with
        | some g => pyStrip (capGet g 1)
        | none => sl "Not extracted"

/-!
extract_publication_year.  Its two patterns are compiled to direct
deterministic scanners.  The citation pattern has a lazy whitespace
star on each side of the year group, but since the year alternatives
start with a digit and the closing parenthesis is not whitespace, the
lazy stars consume exactly the whitespace run, so skipping the
whitespace run deterministically is an equivalent compilation.
-/

/-- The year alternation of the citation pattern: 20 or 19 followed by
two digits, returned with the rest of the input. -/
def yearTok : List Char → Option (List Char × List Char)
  | a :: b :: c :: d :: rest =>
    if ((a == '2' && b == '0') || (a == '1' && b == '9')) &&
        isDigitC c && isDigitC d then
      some ([a, b, c, d], rest)
    else none
  | _ => none

/-- Match the citation pattern at the head of the input: an opening
parenthesis, lazy whitespace, the year group, lazy whitespace, a
closing parenthesis. -/
def matchCitation : List Char → Option (List Char)
  | '(' :: rest =>
    match yearTok (rest.dropWhile isPySpace) with
    | some (tok, rest2) =>
      match rest2.dropWhile isPySpace with
      | ')' :: _ => some tok
      | _ => none
    | none => none
  | _ => none

/-- re.search of the citation pattern: leftmost position at which the
pattern matches. -/
def citationSearch : List Char → Option (List Char)
  | [] => none
  | c :: cs =>
    match matchCitation (c :: cs) with
    | some tok => some tok
    | none => citationSearch cs

/-- Left word-boundary test for the year token. -/
def boundaryOk (prev : Option Char) : Bool :=
  match prev with
  | none => true
  | some c => !isWordC c

/-- Right word-boundary test for the year token. -/
def rightBoundary (rest : List Char) : Bool :=
  match rest with
  | [] => true
  | c :: _ => !isWordC c

/-- The second-pass year token: 20 and two digits, or 199 and one
digit. -/
def yearPat (a b c d : Char) : Bool :=
  (a == '2' && b == '0' && isDigitC c && isDigitC d) ||
    (a == '1' && b == '9' && c == '9' && isDigitC d)

/-- re.findall of the word-bounded year pattern: scan left to right,
collecting non-overlapping word-bounded tokens and resuming after each
match, carrying the previous character for the left boundary. -/
def findYears : Option Char → List Char → List (List Char)
  | prev, a :: b :: c :: d :: rest =>
    if boundaryOk prev && yearPat a b c d && rightBoundary rest then
      [a, b, c, d] :: findYears (some d) rest
    else
      findYears (some a) (b :: c :: d :: rest)
  | _, _ => []

/-- The configured current year of the source. -/
def current_year : Nat := 2025

/-- The candidate years of the second pass: tokens found in the first
2000 characters, as numbers, filtered to at most the current year. -/
def validYears (text : List Char) : List Nat :=
  ((findYears none (text.take 2000)).map digitsVal).filter
    (fun v => decide (v ≤ current_year))

/-- extract_publication_year: the stripped citation-pattern group if
one occurs anywhere, else the maximum surviving second-pass candidate
rendered back to a string, else nothing. -/
def extract_publication_year (text : List Char) : Option (List Char) :=
  match citationSearch text with
  | some y => some (pyStrip y)
  | none =>
    if (validYears text).isEmpty then none
    else some (natToStr (pyMax (validYears text)))

/-- The numeric value of a sample-size capture: thousands separators
removed, then parsed as digits. -/
def parseSampleNum (g : Caps) : Nat :=
  digitsVal ((capGet g 1).filter (fun c => !(c == ',')))

/-- The pattern loop of extract_sample_size: for each pattern in
order, take the first match; if its value exceeds 10 return it,
otherwise move to the next pattern. -/
def sampleFromPatterns : List RE → List Char → Option Nat
  | [], _ => none
  | p :: ps, text =>
    match reSearch (fuelFor text) p text with
    | some g =>
      if 10 < parseSampleNum g then some (parseSampleNum g)
      else sampleFromPatterns ps text
    | none => sampleFromPatterns ps text

/-- extract_sample_size over the five patterns in source order. -/
def extract_sample_size (text : List Char) : Option Nat :=
  sampleFromPatterns [sampleP1, sampleP2, sampleP3, sampleP4, sampleP5] text

/-- The two-group branch of extract_study_duration: int() on the first
group (a ValueError when it is not numeric, as happens for the
date-range pattern whose first group is a date), then value, space,
unit, and a plural s when the value exceeds one and the unit does not
already end in s. -/
def durationTwoGroups (g : Caps) : Except Unit (Option (List Char)) :=
  match pyInt (capGet g 1) with
  | none => .error ()
  | some n =>
    .ok (some (capGet g 1 ++ [' '] ++ capGet g 2 ++
      (if 1 < n ∧ ¬ endsWith 's' (capGet g 2) = true then [ 's' ] else [])))

/-- The three-group branch of extract_study_duration: start-end unit
with a plural s keyed on the end value. -/
def durationThreeGroups (g : Caps) : Except Unit (Option (List Char)) :=
  match pyInt (capGet g 2) with
  | none => .error ()
  | some n =>
    .ok (some (capGet g 1 ++ [ '-' ] ++ capGet g 2 ++ [' '] ++ capGet g 3 ++
      (if 1 < n ∧ ¬ endsWith 's' (capGet g 3) = true then [ 's' ] else [])))

/-- extract_study_duration: the five patterns in source order, the
first match dispatched on its static group count, so the two-group
date-range pattern lands in the two-group branch where int() on the
date raises; no match yields nothing. -/
def extract_study_duration (text : List Char) :
    Except Unit (Option (List Char)) :=
  match reSearch (fuelFor text) durP1 text with
  | some g => durationTwoGroups g
  | none =>
    match reSearch (fuelFor text) durP2 text with
    | some g => durationTwoGroups g
    | none =>
      match reSearch (fuelFor text) durP3 text with
      | some g => durationTwoGroups g
      | none =>
        match reSearch (fuelFor text) durP4 text with
        | some g => durationThreeGroups g
        | none =>
          match reSearch (fuelFor text) durP5 text with
          | some g => durationTwoGroups g
          | none => .ok none

/-!
Classifiers of analyze_articles.py: keyword tables in source order and
first-match-wins scans over the lower-cased text.
-/

/-- First-match-wins scan over an ordered label table: the first label
any of whose keywords is a substring of the lower-cased text. -/
def firstMatchLabel (cats : List (List Char × List (List Char)))
    (lt : List Char) : Option (List Char) :=
  match cats with
  | [] => none
  | (lab, kws) :: rest =>
    if kwAnyMatch kws lt then some lab else firstMatchLabel rest lt

/-- The study-design table of identify_study_design, in source
order. -/
def study_designs : List (List Char × List (List Char)) :=
  [(sl "Randomized Controlled Trial (RCT)",
    [sl "randomized controlled trial", sl "rct",
     sl "randomized clinical trial"]),
   (sl "Cohort Study",
    [sl "cohort study", sl "longitudinal study", sl "prospective cohort",
     sl "retrospective cohort"]),
   (sl "Case-Control Study", [sl "case-control", sl "case control"]),
   (sl "Cross-Sectional Study", [sl "cross-sectional", sl "cross sectional"]),
   (sl "Qualitative Study",
    [sl "qualitative study", sl "qualitative research", sl "interview study",
     sl "focus group"]),
   (sl "Systematic Review",
    [sl "systematic review", sl "systematic literature review"]),
   (sl "Meta-Analysis", [sl "meta-analysis", sl "meta analysis"]),
   (sl "Review Article",
    [sl "review article", sl "literature review", sl "narrative review"]),
   (sl "Mixed Methods", [sl "mixed methods", sl "mixed-methods"]),
   (sl "Quasi-Experimental",
    [sl "quasi-experimental", sl "quasi experimental",
     sl "non-randomized trial"]),
   (sl "Case Series", [sl "case series", sl "case report"]),
   (sl "Observational Study",
    [sl "observational study", sl "observational research"]),
   (sl "Pre-Post Study",
    [sl "pre-post", sl "pre post", sl "before and after", sl "before-after"])]

/-- The secondary-analysis fallback terms. -/
def secondaryTerms : List (List Char) :=
  [sl "secondary analysis", sl "secondary data", sl "retrospective analysis"]

/-- The pilot-study fallback terms. -/
def pilotTerms : List (List Char) :=
  [sl "pilot study", sl "pilot trial", sl "feasibility study"]

/-- identify_study_design: first-match over the table, then the two
fallback rules, else the sentinel. -/
def identify_study_design (text : List Char) : List Char :=
  match firstMatchLabel study_designs (pyLower text) with
  | some d => d
  | none =>
    if kwAnyMatch secondaryTerms (pyLower text) then sl "Secondary Analysis"
    else if kwAnyMatch pilotTerms (pyLower text) then
      sl "Pilot/Feasibility Study"
    else sl "Not clearly specified"

/-- Keywords of the EHR data source. -/
def ehrKws : List (List Char) :=
  [sl "electronic health record", sl "ehr", sl "electronic medical record",
   sl "emr", sl "medical record"]

/-- Keywords of the insurance-claims data source. -/
def claimsKws : List (List Char) :=
  [sl "claims data", sl "insurance claims", sl "medicare claims",
   sl "medicaid claims", sl "billing data"]

/-- Keywords of the survey data source. -/
def surveyKws : List (List Char) :=
  [sl "survey", sl "questionnaire", sl "self-report", sl "self report",
   sl "patient-reported", sl "patient reported"]

/-- Keywords of the interview data source. -/
def interviewKws : List (List Char) :=
  [sl "interview", sl "focus group", sl "qualitative data",
   sl "semi-structured interview"]

/-- Keywords of the registry data source. -/
def registryKws : List (List Char) :=
  [sl "registry", sl "database", sl "data repository", sl "data warehouse"]

/-- Keywords of the VHA data source, including the bare va-with-space
trigger. -/
def vhaKws : List (List Char) :=
  [sl "veterans", sl "va ", sl "veterans health administration", sl "vha",
   sl "va health"]

/-- The data-source table of extract_data_source_type, in source
order. -/
def data_sources : List (List Char × List (List Char)) :=
  [(sl "Electronic Health Records (EHR)", ehrKws),
   (sl "Insurance Claims", claimsKws),
   (sl "Survey/Questionnaire", surveyKws),
   (sl "Interviews/Focus Groups", interviewKws),
   (sl "Registry/Database", registryKws),
   (sl "Veterans Health Administration (VHA) Data", vhaKws),
   (sl "Clinical Trial Data",
    [sl "clinical trial", sl "trial data", sl "randomized trial data"]),
   (sl "Administrative Data",
    [sl "administrative data", sl "administrative records"]),
   (sl "Social Media Data",
    [sl "social media", sl "twitter", sl "facebook", sl "instagram",
     sl "online platform"]),
   (sl "Wearable/Sensor Data",
    [sl "wearable", sl "sensor", sl "monitoring device",
     sl "remote monitoring"]),
   (sl "Mobile App Data",
    [sl "mobile app", sl "smartphone app", sl "application data",
     sl "app-based"])]

/-- extract_data_source_type: first-match over the table, no
fallback. -/
def extract_data_source_type (text : List Char) : List Char :=
  match firstMatchLabel data_sources (pyLower text) with
  | some s => s
  | none => sl "Not clearly specified"

/-- Keywords of the general-adult population label. -/
def gaKws : List (List Char) :=
  [sl "adult", sl "adults", sl "general population"]

/-- The population table of extract_study_population, in source
order. -/
def population_types : List (List Char × List (List Char)) :=
  [(sl "General Adult Population", gaKws),
   (sl "Pediatric/Youth",
    [sl "pediatric", sl "children", sl "adolescent", sl "youth", sl "child",
     sl "teen"]),
   (sl "Elderly",
    [sl "elderly", sl "older adult", sl "geriatric", sl "senior",
     sl "aged 65", sl "65 years and older"]),
   (sl "Veterans",
    [sl "veteran", sl "military", sl "service member", sl "armed forces"]),
   (sl "Rural Population",
    [sl "rural", sl "remote area", sl "underserved area"]),
   (sl "Urban Population", [sl "urban", sl "city", sl "metropolitan"]),
   (sl "Low-Income",
    [sl "low income", sl "low-income", sl "poverty", sl "disadvantaged",
     sl "medicaid"]),
   (sl "Chronic Disease Patients",
    [sl "chronic disease", sl "chronic condition", sl "chronic illness"]),
   (sl "Mental Health Patients",
    [sl "mental health", sl "psychiatric", sl "depression", sl "anxiety",
     sl "psychological"]),
   (sl "Healthcare Providers",
    [sl "provider", sl "physician", sl "clinician", sl "doctor", sl "nurse",
     sl "healthcare professional"]),
   (sl "Specific Ethnic Groups",
    [sl "ethnic", sl "racial", sl "minority", sl "hispanic", sl "latino",
     sl "african american", sl "black", sl "asian"]),
   (sl "Pregnant Women",
    [sl "pregnant", sl "pregnancy", sl "maternal", sl "prenatal"]),
   (sl "COVID-19 Patients",
    [sl "covid", sl "covid-19", sl "coronavirus", sl "sars-cov-2",
     sl "pandemic patient"])]

/-- The found_populations list of extract_study_population: every
label whose keywords match, in table order. -/
def populationLabels (text : List Char) : List (List Char) :=
  (population_types.filter (fun p => kwAnyMatch p.2 (pyLower text))).map
    Prod.fst

/-- extract_study_population: the matching labels joined with comma
and space, or the sentinel when none match. -/
def extract_study_population (text : List Char) : List Char :=
  if (populationLabels text).isEmpty then sl "Not clearly specified"
  else joinSep (sl ", ") (populationLabels text)

/-!
Measure categorization of download_articles.py.  The Python function
accumulates labels into one set across all measures and joins the set
in unspecified iteration order; the model returns the set contents as
a list in the fixed order in which the source tests the categories.
-/

/-- Binary measure keywords. -/
def binTerms : List (List Char) :=
  [sl "binary", sl "yes/no", sl "yes or no", sl "presence", sl "absence",
   sl "used or not", sl "adoption", sl "implemented"]

/-- Percentage measure keywords. -/
def pctTerms : List (List Char) :=
  [sl "percentage", sl "percent", sl "%", sl "proportion", sl "ratio"]

/-- Rate measure keywords. -/
def rateTerms : List (List Char) :=
  [sl "rate", sl "per patient", sl "per visit", sl "per provider",
   sl "per day", sl "per month", sl "per year"]

/-- Count measure keywords. -/
def cntTerms : List (List Char) :=
  [sl "count", sl "number", sl "frequency", sl "volume", sl "quantity"]

/-- Does a lower-cased measure contain any keyword of the set? -/
def measureHas (terms : List (List Char)) (m : List Char) : Bool :=
  kwAnyMatch terms (pyLower m)

/-- Does a measure match at least one of the four category keyword
sets? -/
def measureMatchesAny (m : List Char) : Bool :=
  measureHas binTerms m || measureHas pctTerms m ||
    measureHas rateTerms m || measureHas cntTerms m

/-- The contents of the categories set after the loop of
categorize_telehealth_measures: a category is present exactly when
some measure contains one of its keywords. -/
def catFlagsList (measures : List (List Char)) : List (List Char) :=
  (if measures.any (measureHas binTerms) then [sl "Binary"] else []) ++
  (if measures.any (measureHas pctTerms) then [sl "Percentage"] else []) ++
  (if measures.any (measureHas rateTerms) then [sl "Rate"] else []) ++
  (if measures.any (measureHas cntTerms) then [sl "Count"] else [])

/-- categorize_telehealth_measures: empty input yields no categories;
otherwise the accumulated set, with the single global default label
when the set ended empty. -/
def categorize_telehealth_measures (measures : List (List Char)) :
    List (List Char) :=
  if measures.isEmpty then []
  else if (catFlagsList measures).isEmpty then [sl "Other/Undefined"]
  else catFlagsList measures

/-- The per-sentence categorization the spec describes: each candidate
independently receives its own label set, and a candidate matching no
category receives the default label itself.  Second definition kept
for comparison with the source behaviour. -/
def spec_sentenceCategories (m : List Char) : List (List Char) :=
  if measureMatchesAny m then
    (if measureHas binTerms m then [sl "Binary"] else []) ++
    (if measureHas pctTerms m then [sl "Percentage"] else []) ++
    (if measureHas rateTerms m then [sl "Rate"] else []) ++
    (if measureHas cntTerms m then [sl "Count"] else [])
  else [sl "Other/Undefined"]

/-!
The LLM-assisted measure extractor of analyze_with_llm.py.  The JSON
value space and the parser are collaborators; the call outcome (API
failure or a raw response string) is an input.
-/

/-- A minimal JSON value space for the collaborator contract. -/
inductive Json where
  | obj : List (List Char × Json) → Json
  | arr : List Json → Json
  | str : List Char → Json
  | num : Int → Json

/-- The outcome of the OpenAI chat call: the exception path or a raw
response string. -/
inductive LLMOutcome where
  | apiError : LLMOutcome
  | response : List Char → LLMOutcome

/-- The empty-measures object substituted on every failure path. -/
def emptyMeasures : Json := Json.obj [(sl "measures", Json.arr [])]

/-- analyze_with_llm after the prompt is built: an API failure or an
unparsable response body degrades to the empty-measures object, and a
response that parses is returned verbatim.  The function is total; the
source catches every exception internally. -/
def analyze_with_llm (parse : List Char → Option Json) :
    LLMOutcome → Json
  | .apiError => emptyMeasures
  | .response raw =>
    match parse raw with
    | some j => j
    | none => emptyMeasures

/-!
Records and aggregation.
-/

/-- One row of per-article metadata assembled by analyze_pdf_articles
(that record has no measures field; measures live in the separate
scripts). -/
structure ArticleRecord where
  filename : List Char
  title : List Char
  authors : List Char
  publication_year : Option (List Char)
  study_design : List Char
  data_source : List Char
  population : List Char
  sample_size : Option Nat
  study_duration : Option (List Char)
deriving DecidableEq

/-- The per-document step of the loop of analyze_pdf_articles: a
document whose extracted text is empty is skipped with a warning (no
record); otherwise every extractor runs and the record is built.  An
uncaught ValueError from extract_study_duration propagates. -/
def process_document (pdf_file text : List Char) :
    Except Unit (Option ArticleRecord) :=
  if text.isEmpty then .ok none
  else
    match extract_study_duration text with
    | .error e => .error e
    | .ok dur =>
      .ok (some
        { filename := pdf_file
          title := extract_title_from_pdf text pdf_file
          authors := extract_authors_from_pdf text
          publication_year := extract_publication_year text
          study_design := identify_study_design text
          data_source := extract_data_source_type text
          population := extract_study_population text
          sample_size := extract_sample_size text
          study_duration := dur })

/-- One row of the combined measures table of combine_results.py. -/
structure MeasureRow where
  description : List Char
  category : List Char
  value : List Char
  filename : List Char
deriving DecidableEq

/-- The per-category occurrence count of the category column, model of
the value-counts summary of combine_results. -/
def categoryCount (rows : List MeasureRow) (c : List Char) : Nat :=
  rows.countP (fun r => r.category == c)

/-- The per-file-per-category size of the groupby summary of
combine_results. -/
def fileCategoryCount (rows : List MeasureRow) (f c : List Char) : Nat :=
  rows.countP (fun r => r.filename == f && r.category == c)

/-- The study-design breakdown of the analyze_pdf_articles summary. -/
def designCount (recs : List ArticleRecord) (d : List Char) : Nat :=
  recs.countP (fun r => r.study_design == d)

/-- The data-source breakdown of the analyze_pdf_articles summary. -/
def sourceCount (recs : List ArticleRecord) (s : List Char) : Nat :=
  recs.countP (fun r => r.data_source == s)

/-- Occurrences of one population label inside one record: the
comma-joined population string is split, each part stripped, the
sentinel record excluded. -/
def popInRecord (r : ArticleRecord) (p : List Char) : Nat :=
  if r.population == sl "Not clearly specified" then 0
  else ((splitOnChar ',' r.population).map pyStrip).countP (fun q => q == p)

/-- The population breakdown of the analyze_pdf_articles summary. -/
def populationCount (recs : List ArticleRecord) (p : List Char) : Nat :=
  (recs.map (fun r => popInRecord r p)).sum

/-!
Specification-side sample-size definitions, kept for comparison with
the source behaviour (the spec says the maximum across all matches is
returned).
-/

/-- Values of the matches of one pattern at every starting position of
the text. -/
def reMatchValuesAt (fuel : Nat) (r : RE) : List Char → List Nat
  | [] =>
    match reM fuel r [] [] (fun _ g => some g) with
    | some g => [parseSampleNum g]
    | none => []
  | c :: cs =>
    (match reM fuel r (c :: cs) [] (fun _ g => some g) with
     | some g => [parseSampleNum g]
     | none => []) ++ reMatchValuesAt fuel r cs

/-- All sample-size values found across all five patterns in the
document, the spec reading of all pattern matches. -/
def spec_allSampleValues (text : List Char) : List Nat :=
  ([sampleP1, sampleP2, sampleP3, sampleP4, sampleP5].map
    (fun p => reMatchValuesAt (fuelFor text) p text)).flatten

/-- The sample size the spec describes: the maximum value across all
matches, values of at most 10 discarded as noise. -/
def spec_maxSampleSize (text : List Char) : Option Nat :=
  if ((spec_allSampleValues text).filter (fun v => decide (10 < v))).isEmpty
  then none
  else some (pyMax ((spec_allSampleValues text).filter
    (fun v => decide (10 < v))))

/-!
Helper lemmas.
-/

deriving instance DecidableEq for Except

/-- A prefix match survives appending characters to the haystack. -/
theorem isSubAt_append (n t s : List Char) (h : isSubAt n t = true) :
    isSubAt n (t ++ s) = true := by
  induction n generalizing t with
  | nil => simp [isSubAt]
  | cons c ns ih =>
    cases t with
    | nil => simp [isSubAt] at h
    | cons h1 t1 =>
      simp only [isSubAt, Bool.and_eq_true] at h
      simp only [List.cons_append, isSubAt, Bool.and_eq_true]
      exact ⟨h.1, ih t1 h.2⟩

/-- The empty needle occurs in every haystack. -/
theorem strIn_nil (hay : List Char) : strIn [] hay = true := by
  cases hay <;> simp [strIn, isSubAt]

/-- A substring occurrence survives appending characters to the
haystack. -/
theorem strIn_append (n t s : List Char) (h : strIn n t = true) :
    strIn n (t ++ s) = true := by
  induction t with
  | nil =>
    have : n = [] := by
      cases n with
      | nil => rfl
      | cons c cs => simp [strIn] at h
    subst this
    exact strIn_nil s
  | cons c cs ih =>
    simp only [strIn, Bool.or_eq_true] at h
    simp only [List.cons_append, strIn, Bool.or_eq_true]
    rcases h with h | h
    · exact Or.inl (isSubAt_append n (c :: cs) s h)
    · exact Or.inr (ih h)

/-!
Claim C1.
-/

/-- Claim C1 counterexample: on a document whose extracted text is the
empty string the per-document step of analyze_pdf_articles produces no
ArticleRecord at all (the loop skips the document), contrary to the
claim that a fully-sentinel record is produced. -/
theorem claim1_counterexample :
    process_document (sl "study.pdf") [] = Except.ok none := rfl

/-- Claim C1 amended: for every document whose extracted text is
empty, the loop skips the record without failing, while the individual
extractors applied to the empty text do yield exactly the sentinel
values the claim lists: fallback filename-derived title, authors Not
extracted, classifier fields Not clearly specified, no year, no sample
size, no duration. -/
theorem claim1_amended (fname : List Char) :
    process_document fname [] = Except.ok none ∧
    extract_title_from_pdf [] fname = fallback_title fname ∧
    extract_authors_from_pdf [] = sl "Not extracted" ∧
    extract_publication_year [] = none ∧
    identify_study_design [] = sl "Not clearly specified" ∧
    extract_data_source_type [] = sl "Not clearly specified" ∧
    extract_study_population [] = sl "Not clearly specified" ∧
    extract_sample_size [] = none ∧
    extract_study_duration [] = Except.ok none := by
  refine ⟨rfl, rfl, ?_, ?_, ?_, ?_, ?_, ?_, ?_⟩ <;> decide

/-!
Claim C2.
-/

/-- Claim C2: evaluation of the code at the failing input.  The first
four duration patterns do not match, the date-range pattern does, and
because that match has two groups the scalar branch runs int() on the
captured date January 2020, raising ValueError, instead of returning
the formatted date range. -/
theorem claim2_failing_eval :
    extract_study_duration (sl "between January 2020 and December 2021") =
      Except.error () := by decide

/-!
Claim C5.
-/

/-- Claim C5 counterexample: on the scenario text the duration
extractor does not return the string 6 months, because no duration
pattern accepts the bare phrase over 6 months. -/
theorem claim5_counterexample :
    extract_study_duration
      (sl "We enrolled n=150 patients in a randomized controlled trial over 6 months.") ≠
      Except.ok (some (sl "6 months")) := by decide

/-- Claim C5 amended: on the scenario text the study design is the RCT
label and the sample size is 150, but the study duration comes back
empty. -/
theorem claim5_amended :
    identify_study_design
      (sl "We enrolled n=150 patients in a randomized controlled trial over 6 months.") =
      sl "Randomized Controlled Trial (RCT)" ∧
    extract_sample_size
      (sl "We enrolled n=150 patients in a randomized controlled trial over 6 months.") =
      some 150 ∧
    extract_study_duration
      (sl "We enrolled n=150 patients in a randomized controlled trial over 6 months.") =
      Except.ok none := by
  refine ⟨?_, ?_, ?_⟩ <;> decide

/-!
Claim C7.
-/

/-- Claim C7: whenever the chat call fails or its response does not
parse as JSON, analyze_with_llm returns the empty-measures object; the
function is total, so no exception reaches the caller. -/
theorem claim7_llm_failure (parse : List Char → Option Json)
    (o : LLMOutcome)
    (h : o = LLMOutcome.apiError ∨
      ∃ raw, o = LLMOutcome.response raw ∧ parse raw = none) :
    analyze_with_llm parse o = emptyMeasures := by
  rcases h with h | ⟨raw, hr, hp⟩
  · subst h; rfl
  · subst hr; simp [analyze_with_llm, hp]

/-- Claim C7 witness: a concrete unparsable response degrades to the
empty-measures object. -/
theorem claim7_witness :
    analyze_with_llm (fun _ => none) (LLMOutcome.response (sl "not json")) =
      emptyMeasures :=
  claim7_llm_failure (fun _ => none) (LLMOutcome.response (sl "not json"))
    (Or.inr ⟨sl "not json", rfl, rfl⟩)

/-!
Claim C8.
-/

/-- Claim C8: every summary count is invariant under permuting the
processing order of the records: the per-category and per-file
measure counts of combine_results and the design, source and
population breakdowns of analyze_pdf_articles. -/
theorem claim8_aggregation_perm (rows rows2 : List MeasureRow)
    (recs recs2 : List ArticleRecord) (hr : rows.Perm rows2)
    (hc : recs.Perm recs2) :
    (∀ c, categoryCount rows c = categoryCount rows2 c) ∧
    (∀ f c, fileCategoryCount rows f c = fileCategoryCount rows2 f c) ∧
    (∀ d, designCount recs d = designCount recs2 d) ∧
    (∀ s, sourceCount recs s = sourceCount recs2 s) ∧
    (∀ p, populationCount recs p = populationCount recs2 p) := by
  refine ⟨fun c => hr.countP_eq _, fun f c => hr.countP_eq _,
    fun d => hc.countP_eq _, fun s => hc.countP_eq _,
    fun p => (hc.map (fun r => popInRecord r p)).sum_eq⟩

/-- Claim C8 witness: a concrete two-row shuffle leaves the category
count unchanged. -/
theorem claim8_witness :
    ([⟨sl "d1", sl "Rate", sl "5", sl "a.pdf"⟩,
      ⟨sl "d2", sl "Count", sl "7", sl "b.pdf"⟩] : List MeasureRow).Perm
      [⟨sl "d2", sl "Count", sl "7", sl "b.pdf"⟩,
       ⟨sl "d1", sl "Rate", sl "5", sl "a.pdf"⟩] ∧
    categoryCount
      [⟨sl "d1", sl "Rate", sl "5", sl "a.pdf"⟩,
       ⟨sl "d2", sl "Count", sl "7", sl "b.pdf"⟩] (sl "Rate") =
    categoryCount
      [⟨sl "d2", sl "Count", sl "7", sl "b.pdf"⟩,
       ⟨sl "d1", sl "Rate", sl "5", sl "a.pdf"⟩] (sl "Rate") :=
  ⟨by decide,
    (claim8_aggregation_perm _ _ [] [] (by decide) (List.Perm.refl _)).1
      (sl "Rate")⟩

/-!
Claim C10.
-/

/-- Claim C10: any text whose lower-cased form contains the
three-character substring va-with-space and matches no trigger of the
five earlier data-source categories is classified as VHA data rather
than the sentinel. -/
theorem claim10_va_trigger (t : List Char)
    (h1 : kwAnyMatch ehrKws (pyLower t) = false)
    (h2 : kwAnyMatch claimsKws (pyLower t) = false)
    (h3 : kwAnyMatch surveyKws (pyLower t) = false)
    (h4 : kwAnyMatch interviewKws (pyLower t) = false)
    (h5 : kwAnyMatch registryKws (pyLower t) = false)
    (h6 : strIn (sl "va ") (pyLower t) = true) :
    extract_data_source_type t =
      sl "Veterans Health Administration (VHA) Data" := by
  have hvha : kwAnyMatch vhaKws (pyLower t) = true := by
    simp [kwAnyMatch, vhaKws, h6]
  simp [extract_data_source_type, data_sources, firstMatchLabel,
    h1, h2, h3, h4, h5, hvha]

/-- Claim C10 witness: the word geneva followed by a space contains
the va-with-space trigger and is classified as VHA data. -/
theorem claim10_witness :
    strIn (sl "va ") (pyLower (sl "geneva now")) = true ∧
    extract_data_source_type (sl "geneva now") =
      sl "Veterans Health Administration (VHA) Data" :=
  ⟨by decide,
    claim10_va_trigger (sl "geneva now") (by decide) (by decide) (by decide)
      (by decide) (by decide) (by decide)⟩

/-!
Claim C9.
-/

/-- Claim C9 counterexample: the keyword adult maps to the
General Adult Population label, that label is already in the result
for the text, yet adding one more occurrence of the keyword changes
the classification, because the appended occurrence completes the
Elderly trigger older-adult across the boundary. -/
theorem claim9_counterexample :
    (sl "adult") ∈ gaKws ∧
    (sl "General Adult Population") ∈
      populationLabels (sl "adults and the older ") ∧
    extract_study_population (sl "adults and the older " ++ sl "adult") ≠
      extract_study_population (sl "adults and the older ") := by
  refine ⟨by decide, by decide, by decide⟩

/-- Claim C9 amended: the population classifier is monotone
non-decreasing under appending text: every label returned for a text,
in particular one whose keyword occurrence is duplicated at the end,
is still returned for the extended text; the label set can however
grow, as boundary effects may complete other categories' keywords. -/
theorem claim9_amended (t s l : List Char)
    (h : l ∈ populationLabels t) : l ∈ populationLabels (t ++ s) := by
  simp only [populationLabels, List.mem_map] at h ⊢
  obtain ⟨p, hp, rfl⟩ := h
  refine ⟨p, ?_, rfl⟩
  rw [List.mem_filter] at hp ⊢
  refine ⟨hp.1, ?_⟩
  have h2 := hp.2
  simp only [kwAnyMatch, List.any_eq_true] at h2 ⊢
  obtain ⟨k, hk, hin⟩ := h2
  refine ⟨k, hk, ?_⟩
  have hl : pyLower (t ++ s) = pyLower t ++ pyLower s := by
    simp [pyLower]
  rw [hl]
  exact strIn_append _ _ _ hin

/-- Claim C9 witness: the adult label survives appending more text. -/
theorem claim9_witness :
    (sl "General Adult Population") ∈ populationLabels (sl "adult") ∧
    (sl "General Adult Population") ∈
      populationLabels (sl "adult" ++ sl " care") :=
  ⟨by decide, claim9_amended (sl "adult") (sl " care") _ (by decide)⟩

/-!
Claim C4.
-/

/-- The pattern loop of extract_sample_size only ever returns values
that passed the greater-than-ten check. -/
theorem sampleFromPatterns_gt :
    ∀ (ps : List RE) (text : List Char) (v : Nat),
      sampleFromPatterns ps text = some v → 10 < v := by
  intro ps
  induction ps with
  | nil => intro text v h; simp [sampleFromPatterns] at h
  | cons p ps ih =>
    intro text v h
    simp only [sampleFromPatterns] at h
    split at h
    next g heq =>
      split at h
      next hv => injection h with h; omega
      next hv => exact ih text v h
    next heq => exact ih text v h

/-- Claim C4 counterexample: on a text containing both n=20 and n=500
the extractor returns 20, the first match of the first pattern, while
the maximum across all pattern matches is 500. -/
theorem claim4_counterexample :
    extract_sample_size (sl "We observed n=20 and n=500 cases") = some 20 ∧
    spec_maxSampleSize (sl "We observed n=20 and n=500 cases") = some 500 ∧
    (20 : Nat) ≠ 500 := by
  refine ⟨by decide, by decide, by decide⟩

/-- Claim C4 amended: a returned sample size always exceeds 10, but it
is the value of the first accepted match in pattern-priority order,
not the maximum across all matches in the document. -/
theorem claim4_amended (t : List Char) (v : Nat)
    (h : extract_sample_size t = some v) : 10 < v :=
  sampleFromPatterns_gt _ t v h

/-- Claim C4 witness: a concrete accepted sample size exceeds 10. -/
theorem claim4_witness :
    extract_sample_size (sl "n=42 cases") = some 42 ∧ 10 < 42 :=
  ⟨by decide, claim4_amended (sl "n=42 cases") 42 (by decide)⟩

/-!
Claim C6.
-/

/-- Every element of the accumulated category set is one of the four
category labels. -/
theorem catFlagsList_mem (M : List (List Char)) (x : List Char)
    (hx : x ∈ catFlagsList M) :
    x = sl "Binary" ∨ x = sl "Percentage" ∨ x = sl "Rate" ∨
      x = sl "Count" := by
  simp only [catFlagsList, List.mem_append] at hx
  rcases hx with ((h | h) | h) | h <;> split at h <;> simp_all

/-- The accumulated category set is empty exactly when no measure
matches any of the four keyword sets. -/
theorem catFlagsList_empty_iff (M : List (List Char)) :
    catFlagsList M = [] ↔
      (M.any (measureHas binTerms) = false ∧
       M.any (measureHas pctTerms) = false ∧
       M.any (measureHas rateTerms) = false ∧
       M.any (measureHas cntTerms) = false) := by
  simp only [catFlagsList]
  cases h1 : M.any (measureHas binTerms) <;>
    cases h2 : M.any (measureHas pctTerms) <;>
      cases h3 : M.any (measureHas rateTerms) <;>
        cases h4 : M.any (measureHas cntTerms) <;> simp

/-- No measure matches any category exactly when each of the four
global any-flags is false. -/
theorem matchesAny_all_false_iff (M : List (List Char)) :
    (∀ m ∈ M, measureMatchesAny m = false) ↔
      (M.any (measureHas binTerms) = false ∧
       M.any (measureHas pctTerms) = false ∧
       M.any (measureHas rateTerms) = false ∧
       M.any (measureHas cntTerms) = false) := by
  simp only [List.any_eq_false, measureMatchesAny, Bool.or_eq_false_iff,
    Bool.not_eq_true]
  constructor
  · intro h
    exact ⟨fun m hm => (h m hm).1.1.1, fun m hm => (h m hm).1.1.2,
      fun m hm => (h m hm).1.2, fun m hm => (h m hm).2⟩
  · rintro ⟨h1, h2, h3, h4⟩ m hm
    exact ⟨⟨⟨h1 m hm, h2 m hm⟩, h3 m hm⟩, h4 m hm⟩

/-- Claim C6 counterexample: with one sentence matching Rate and one
sentence matching nothing, the source assigns only the global Rate
label; the individually unmatched sentence does not receive the
default label that the per-sentence specification reading assigns
it. -/
theorem claim6_counterexample :
    categorize_telehealth_measures [sl "usage rate", sl "hello"] =
      [sl "Rate"] ∧
    spec_sentenceCategories (sl "hello") = [sl "Other/Undefined"] ∧
    (sl "Other/Undefined") ∉
      categorize_telehealth_measures [sl "usage rate", sl "hello"] := by
  refine ⟨by decide, by decide, by decide⟩

/-- Claim C6 amended: labels are accumulated into one set across all
candidate sentences, and the default Other/Undefined label appears
exactly when the candidate list is non-empty and no candidate at all
matches any of the four keyword sets; it is a single global default,
not a per-sentence one. -/
theorem claim6_amended (measures : List (List Char)) :
    (sl "Other/Undefined") ∈ categorize_telehealth_measures measures ↔
      (measures ≠ [] ∧ ∀ m ∈ measures, measureMatchesAny m = false) := by
  cases hM : measures.isEmpty
  · have hne : measures ≠ [] := by
      intro hcon; subst hcon; simp at hM
    simp only [categorize_telehealth_measures, hM, Bool.false_eq_true,
      if_false]
    by_cases hc : catFlagsList measures = []
    · have hisE : (catFlagsList measures).isEmpty = true := by
        simp [hc]
      simp only [hisE, if_true]
      constructor
      · intro _
        exact ⟨hne, (matchesAny_all_false_iff measures).mpr
          ((catFlagsList_empty_iff measures).mp hc)⟩
      · intro _; simp
    · have hisE : (catFlagsList measures).isEmpty = false := by
        simpa [List.isEmpty_iff] using hc
      simp only [hisE, Bool.false_eq_true, if_false]
      constructor
      · intro hmem
        rcases catFlagsList_mem _ _ hmem with h | h | h | h <;>
          exact absurd h (by decide)
      · rintro ⟨_, hall⟩
        exact absurd ((catFlagsList_empty_iff measures).mpr
          ((matchesAny_all_false_iff measures).mp hall)) hc
  · have : measures = [] := by
      cases measures with
      | nil => rfl
      | cons m ms => simp at hM
    subst this
    simp [categorize_telehealth_measures]

/-- Claim C6 witness: a single unmatched candidate yields the global
default label. -/
theorem claim6_witness :
    (sl "Other/Undefined") ∈ categorize_telehealth_measures [sl "hello"] :=
  (claim6_amended [sl "hello"]).mpr ⟨by decide, by decide⟩

/-!
Claim C3.
-/

/-- Numeric bounds of the digit class. -/
theorem isDigitC_bounds (c : Char) (h : isDigitC c = true) :
    48 ≤ c.toNat ∧ c.toNat ≤ 57 := by
  simpa [isDigitC, decide_eq_true_eq] using h

/-- Value bounds of a 20xx token. -/
theorem digitsVal_20 (c d : Char) (hc : isDigitC c = true)
    (hd : isDigitC d = true) :
    2000 ≤ digitsVal ['2', '0', c, d] ∧ digitsVal ['2', '0', c, d] ≤ 2099 := by
  obtain ⟨hc1, hc2⟩ := isDigitC_bounds c hc
  obtain ⟨hd1, hd2⟩ := isDigitC_bounds d hd
  have h2 : ('2' : Char).toNat = 50 := rfl
  have h0 : ('0' : Char).toNat = 48 := rfl
  simp only [digitsVal, List.foldl, h2, h0]
  omega

/-- Value bounds of a 19xx token. -/
theorem digitsVal_19 (c d : Char) (hc : isDigitC c = true)
    (hd : isDigitC d = true) :
    1900 ≤ digitsVal ['1', '9', c, d] ∧ digitsVal ['1', '9', c, d] ≤ 1999 := by
  obtain ⟨hc1, hc2⟩ := isDigitC_bounds c hc
  obtain ⟨hd1, hd2⟩ := isDigitC_bounds d hd
  have h1 : ('1' : Char).toNat = 49 := rfl
  have h9 : ('9' : Char).toNat = 57 := rfl
  simp only [digitsVal, List.foldl, h1, h9]
  omega

/-- Value bounds of a 199x token. -/
theorem digitsVal_199 (d : Char) (hd : isDigitC d = true) :
    1990 ≤ digitsVal ['1', '9', '9', d] ∧
      digitsVal ['1', '9', '9', d] ≤ 1999 := by
  obtain ⟨hd1, hd2⟩ := isDigitC_bounds d hd
  have h1 : ('1' : Char).toNat = 49 := rfl
  have h9 : ('9' : Char).toNat = 57 := rfl
  simp only [digitsVal, List.foldl, h1, h9]
  omega

/-- The shape of the year tokens accepted by the citation scanner:
four digits with value between 1900 and 2099. -/
theorem yearTok_shape (l tok rest : List Char)
    (h : yearTok l = some (tok, rest)) :
    tok.length = 4 ∧ tok.all isDigitC = true ∧
      1900 ≤ digitsVal tok ∧ digitsVal tok ≤ 2099 := by
  unfold yearTok at h
  split at h
  next a b c d rest2 =>
    split at h
    next hcond =>
      injection h with h
      injection h with h1 h2
      subst h1
      simp only [Bool.and_eq_true, Bool.or_eq_true, beq_iff_eq] at hcond
      obtain ⟨⟨hab, hc⟩, hd⟩ := hcond
      rcases hab with ⟨ha, hb⟩ | ⟨ha, hb⟩ <;> subst ha <;> subst hb
      · have := digitsVal_20 c d hc hd
        refine ⟨rfl, ?_, by omega, by omega⟩
        simp only [List.all_cons, List.all_nil, hc, hd]
        decide
      · have := digitsVal_19 c d hc hd
        refine ⟨rfl, ?_, by omega, by omega⟩
        simp only [List.all_cons, List.all_nil, hc, hd]
        decide
    next => exact absurd h (by simp)
  next => exact absurd h (by simp)

/-- The shape of a citation match at a fixed position. -/
theorem matchCitation_shape (l tok : List Char)
    (h : matchCitation l = some tok) :
    tok.length = 4 ∧ tok.all isDigitC = true ∧
      1900 ≤ digitsVal tok ∧ digitsVal tok ≤ 2099 := by
  unfold matchCitation at h
  split at h
  next rest =>
    split at h
    next t2 r2 heq =>
      split at h
      next =>
        injection h with h
        subst h
        exact yearTok_shape _ _ _ heq
      next => exact absurd h (by simp)
    next => exact absurd h (by simp)
  next => exact absurd h (by simp)

/-- The shape of the citation-search result. -/
theorem citationSearch_shape :
    ∀ (l tok : List Char), citationSearch l = some tok →
      tok.length = 4 ∧ tok.all isDigitC = true ∧
        1900 ≤ digitsVal tok ∧ digitsVal tok ≤ 2099 := by
  intro l
  induction l with
  | nil => intro tok h; simp [citationSearch] at h
  | cons c cs ih =>
    intro tok h
    simp only [citationSearch] at h
    cases hm : matchCitation (c :: cs) with
    | some t =>
      rw [hm] at h
      injection h with h
      subst h
      exact matchCitation_shape _ _ hm
    | none =>
      rw [hm] at h
      exact ih tok h

/-- dropWhile is the identity when no element satisfies the
predicate. -/
theorem dropWhile_all_false (p : Char → Bool) (l : List Char)
    (h : ∀ c ∈ l, p c = false) : l.dropWhile p = l := by
  cases l with
  | nil => rfl
  | cons c cs => simp [List.dropWhile_cons, h c (by simp)]

/-- Stripping is the identity on a string with no whitespace. -/
theorem pyStrip_no_space (l : List Char)
    (h : ∀ c ∈ l, isPySpace c = false) : pyStrip l = l := by
  unfold pyStrip
  rw [dropWhile_all_false _ _ h, dropWhile_all_false, List.reverse_reverse]
  intro c hc
  exact h c (List.mem_reverse.mp hc)

/-- Digits are not whitespace. -/
theorem digits_no_space (l : List Char) (h : l.all isDigitC = true) :
    ∀ c ∈ l, isPySpace c = false := by
  intro c hc
  have hb := isDigitC_bounds c (List.all_eq_true.mp h c hc)
  simp only [isPySpace, decide_eq_false_iff_not]
  omega

/-- Every token collected by the second-pass year scan is a four-digit
token with value between 1990 and 2099. -/
theorem findYears_vals :
    ∀ (n : Nat) (prev : Option Char) (cs : List Char), cs.length ≤ n →
      ∀ g ∈ findYears prev cs,
        1990 ≤ digitsVal g ∧ digitsVal g ≤ 2099 ∧ g.length = 4 ∧
          g.all isDigitC = true := by
  intro n
  induction n with
  | zero =>
    intro prev cs hlen g hg
    have : cs = [] := List.length_eq_zero.mp (Nat.le_zero.mp hlen)
    subst this
    simp [findYears] at hg
  | succ n ih =>
    intro prev cs hlen g hg
    match cs with
    | [] => simp [findYears] at hg
    | [a] => simp [findYears] at hg
    | [a, b] => simp [findYears] at hg
    | [a, b, c] => simp [findYears] at hg
    | a :: b :: c :: d :: rest =>
      have heq : findYears prev (a :: b :: c :: d :: rest) =
          if boundaryOk prev && yearPat a b c d && rightBoundary rest then
            [a, b, c, d] :: findYears (some d) rest
          else findYears (some a) (b :: c :: d :: rest) := rfl
      rw [heq] at hg
      simp only [List.length_cons] at hlen
      by_cases hcond :
          (boundaryOk prev && yearPat a b c d && rightBoundary rest) = true
      · rw [if_pos hcond] at hg
        rcases List.mem_cons.mp hg with hg | hg
        · subst hg
          simp only [Bool.and_eq_true] at hcond
          have hy := hcond.1.2
          simp only [yearPat, Bool.or_eq_true, Bool.and_eq_true,
            beq_iff_eq] at hy
          rcases hy with ⟨⟨⟨ha, hb⟩, hc⟩, hd⟩ | ⟨⟨⟨ha, hb⟩, hc⟩, hd⟩ <;>
            subst ha <;> subst hb
          · have := digitsVal_20 c d hc hd
            refine ⟨by omega, by omega, rfl, ?_⟩
            simp only [List.all_cons, List.all_nil, hc, hd]
            decide
          · subst hc
            have := digitsVal_199 d hd
            refine ⟨by omega, by omega, rfl, ?_⟩
            simp only [List.all_cons, List.all_nil, hd]
            decide
        · exact ih (some d) rest (by omega) g hg
      · rw [if_neg hcond] at hg
        exact ih (some a) (b :: c :: d :: rest) (by simp; omega) g hg

/-- An upper bound on all elements and the seed bounds the fold of
max. -/
theorem foldl_max_le (hi : Nat) :
    ∀ (l : List Nat) (a : Nat), a ≤ hi → (∀ x ∈ l, x ≤ hi) →
      l.foldl Nat.max a ≤ hi := by
  intro l
  induction l with
  | nil => intro a ha _; simpa using ha
  | cons x xs ih =>
    intro a ha h
    simp only [List.foldl]
    exact ih (Nat.max a x) (Nat.max_le.mpr ⟨ha, h x (by simp)⟩)
      (fun y hy => h y (by simp [hy]))

/-- The seed never exceeds the fold of max. -/
theorem le_foldl_max :
    ∀ (l : List Nat) (a : Nat), a ≤ l.foldl Nat.max a := by
  intro l
  induction l with
  | nil => intro a; simp
  | cons x xs ih =>
    intro a
    simp only [List.foldl]
    exact le_trans (Nat.le_max_left a x) (ih (Nat.max a x))

/-- Bounds on the Python max of a non-empty list of bounded values. -/
theorem pyMax_bounds (l : List Nat) (lo hi : Nat) (hne : l ≠ [])
    (h : ∀ x ∈ l, lo ≤ x ∧ x ≤ hi) : lo ≤ pyMax l ∧ pyMax l ≤ hi := by
  cases l with
  | nil => exact absurd rfl hne
  | cons x xs =>
    constructor
    · have hx : lo ≤ x := (h x (by simp)).1
      have h1 : x ≤ Nat.max 0 x := Nat.le_max_right 0 x
      have h2 : Nat.max 0 x ≤ (x :: xs).foldl Nat.max 0 := by
        simp only [pyMax, List.foldl]
        exact le_foldl_max xs (Nat.max 0 x)
      simp only [pyMax]
      omega
    · exact foldl_max_le hi (x :: xs) 0 (Nat.zero_le hi)
        (fun y hy => (h y hy).2)

/-- Rendering round-trip for the year range that can reach the
second-pass maximum: four digits whose value is the original
number. -/
theorem natToStr_props_offset :
    ∀ m : Nat, m < 36 →
      (natToStr (1990 + m)).length = 4 ∧
        (natToStr (1990 + m)).all isDigitC = true ∧
        digitsVal (natToStr (1990 + m)) = 1990 + m := by decide

/-- Rendering round-trip on the reachable year range. -/
theorem natToStr_props (m : Nat) (h1 : 1990 ≤ m) (h2 : m ≤ 2025) :
    (natToStr m).length = 4 ∧ (natToStr m).all isDigitC = true ∧
      digitsVal (natToStr m) = m := by
  have hm : m = 1990 + (m - 1990) := by omega
  rw [hm]
  exact natToStr_props_offset (m - 1990) (by omega)

/-- Elements of the filtered second-pass candidate list lie between
1990 and the configured current year. -/
theorem validYears_mem (text : List Char) (v : Nat)
    (hv : v ∈ validYears text) : 1990 ≤ v ∧ v ≤ 2025 := by
  simp only [validYears, List.mem_filter, List.mem_map] at hv
  obtain ⟨⟨g, hg, rfl⟩, hle⟩ := hv
  have hs := findYears_vals (text.take 2000).length none (text.take 2000)
    (le_refl _) g hg
  simp only [current_year, decide_eq_true_eq] at hle
  exact ⟨hs.1, hle⟩

/-- Claim C3 counterexample: a parenthesized citation year of 2099 is
returned by the priority-1 branch even though it exceeds the
configured current year, because only the priority-2 scan filters by
the current year. -/
theorem claim3_counterexample :
    extract_publication_year (sl "(2099)") = some (sl "2099") ∧
    ¬ digitsVal (sl "2099") ≤ current_year := by
  refine ⟨by decide, by decide⟩

/-- Claim C3 amended: a returned publication year is always a
four-digit year between 1900 and 2099, and the bound by the configured
current year holds whenever the year came from the priority-2 scan,
that is whenever the parenthesized-citation pattern found nothing; the
priority-1 branch itself can exceed the current year. -/
theorem claim3_amended :
    (∀ (t y : List Char), extract_publication_year t = some y →
      y.length = 4 ∧ y.all isDigitC = true ∧ 1900 ≤ digitsVal y ∧
        digitsVal y ≤ 2099) ∧
    (∀ (t y : List Char), citationSearch t = none →
      extract_publication_year t = some y →
        digitsVal y ≤ current_year) := by
  constructor
  · intro t y h
    unfold extract_publication_year at h
    cases hc : citationSearch t with
    | some g =>
      rw [hc] at h
      injection h with h
      subst h
      have hs := citationSearch_shape t g hc
      rw [pyStrip_no_space g (digits_no_space g hs.2.1)]
      exact ⟨hs.1, hs.2.1, hs.2.2.1, hs.2.2.2⟩
    | none =>
      rw [hc] at h
      by_cases he : (validYears t).isEmpty
      · rw [if_pos he] at h; cases h
      · rw [if_neg he] at h
        injection h with h
        subst h
        have hne : validYears t ≠ [] := by
          simpa [List.isEmpty_iff] using he
        have hb := pyMax_bounds (validYears t) 1990 2025 hne
          (fun x hx => validYears_mem t x hx)
        have hp := natToStr_props (pyMax (validYears t)) hb.1 hb.2
        refine ⟨hp.1, hp.2.1, ?_, ?_⟩ <;> rw [hp.2.2] <;> omega
  · intro t y hc h
    unfold extract_publication_year at h
    rw [hc] at h
    by_cases he : (validYears t).isEmpty
    · rw [if_pos he] at h; cases h
    · rw [if_neg he] at h
      injection h with h
      subst h
      have hne : validYears t ≠ [] := by
        simpa [List.isEmpty_iff] using he
      have hb := pyMax_bounds (validYears t) 1990 2025 hne
        (fun x hx => validYears_mem t x hx)
      have hp := natToStr_props (pyMax (validYears t)) hb.1 hb.2
      rw [hp.2.2]
      simp only [current_year]
      omega

/-- Claim C3 witness: a concrete citation year satisfies the amended
shape facts. -/
theorem claim3_witness :
    extract_publication_year (sl "alpha (2021) beta") = some (sl "2021") ∧
    (sl "2021").length = 4 ∧ (sl "2021").all isDigitC = true ∧
    1900 ≤ digitsVal (sl "2021") ∧ digitsVal (sl "2021") ≤ 2099 :=
  ⟨by decide,
    claim3_amended.1 (sl "alpha (2021) beta") (sl "2021") (by decide)⟩
